import Mathlib

/-!
# HTTP server lifecycle of `beater/http.go`

A shallow embedding of `newHTTPServer`, `httpServer.start`, `httpServer.stop`
and `doNotTrace`.

* Values of Go library types (`*http.Server`, `net.Listener`, `*tls.Config`)
  are plain data.
* Calls into collaborators (`api.NewMux`, `tlscommon.LoadTLSServerConfig`,
  `http.Server.Serve`, `ServeTLS`, `Shutdown`, `Close`) take their results from
  an environment record `Env`; every such call and every log line is recorded,
  in program order, in a list of `Event`s.
* A Go `error` is `Option GoError` (`none` is `nil`); a `(T, error)` result is
  `Except GoError T`.
-/

namespace Beater

/-! ## Data model -/

/-- A non-nil Go `error`, identified with the text of `err.Error()`. -/
abbrev GoError := String

/-- Modelled from the spec: the transport-security settings of
`config.Config.TLS` (type `*tlscommon.ServerConfig`, declared outside this
file): an enabled flag plus the certificate material. -/
structure TLSSettings where
  Enabled : Bool
  Material : String
  deriving DecidableEq, Repr

/-- Modelled from the spec: `TLS.IsEnabled()`, the enabled flag of the
transport-security settings. -/
def TLSSettings.IsEnabled (t : TLSSettings) : Bool := t.Enabled

/-- Modelled from the spec: the RUM settings `config.Config.RumConfig`
(declared outside this file): an enabled flag and the ordered list of allowed
origins. -/
structure RumConfig where
  Enabled : Bool
  AllowOrigins : List String
  deriving DecidableEq, Repr

/-- Modelled from the spec: `RumConfig.IsEnabled()`, the enabled flag of the
RUM settings. -/
def RumConfig.IsEnabled (r : RumConfig) : Bool := r.Enabled

/-- Modelled from the spec: the fields of `config.Config` (declared outside
this file) that `http.go` reads. Durations and sizes are Go integers that are
only copied, and `MaxConnections` is only compared with zero. -/
structure Config where
  Host : String
  IdleTimeout : Int
  ReadTimeout : Int
  WriteTimeout : Int
  MaxHeaderSize : Int
  MaxConnections : Int
  TLS : TLSSettings
  SecretToken : String
  RumConfig : RumConfig
  deriving DecidableEq, Repr

/-- The `*http.ServeMux` returned by `api.NewMux`. -/
structure Mux where
  id : Nat
  deriving DecidableEq, Repr

/-- The `*apm.Tracer` handed to `newHTTPServer`. -/
structure Tracer where
  id : Nat
  deriving DecidableEq, Repr

/-- The `publish.Reporter` handed to `newHTTPServer`. -/
structure Reporter where
  id : Nat
  deriving DecidableEq, Repr

/-- The `*logp.Logger` handed to `newHTTPServer`. -/
structure Logger where
  id : Nat
  deriving DecidableEq, Repr

/-- The `*tlscommon.TLSConfig` returned by `tlscommon.LoadTLSServerConfig`. -/
structure TLSServerConfig where
  id : Nat
  deriving DecidableEq, Repr

/-- A non-nil `*tls.Config`. -/
structure TLSConfig where
  id : Nat
  deriving DecidableEq, Repr

/-- The handler `apmhttp.Wrap(mux, WithServerRequestIgnorer(doNotTrace),
WithTracer(tracer))`: the mux wrapped with the tracer, the request ignorer
being `doNotTrace`. -/
structure Handler where
  mux : Mux
  tracer : Tracer
  deriving DecidableEq, Repr

/-- The fields of `http.Server` that `http.go` sets or reads. `TLSConfig` is a
pointer: `none` is `nil`. -/
structure Http.Server where
  Addr : String
  Handler : Handler
  IdleTimeout : Int
  ReadTimeout : Int
  WriteTimeout : Int
  MaxHeaderBytes : Int
  TLSConfig : Option TLSConfig
  deriving DecidableEq, Repr

/-- The type `httpServer`: the embedded `*http.Server`, the configuration and
the logger. -/
structure httpServer where
  Server : Http.Server
  cfg : Config
  logger : Logger
  deriving DecidableEq, Repr

/-- A `net.Listener`: one supplied by the caller, or the wrapper that
`netutil.LimitListener(l, n)` returns around `l`. -/
inductive Listener where
  | raw (id : Nat)
  | limit (l : Listener) (n : Int)
  deriving DecidableEq, Repr

/-- The call `netutil.LimitListener(l, n)`. -/
def LimitListener (l : Listener) (n : Int) : Listener := Listener.limit l n

/-- Log levels used by `http.go`. -/
inductive Level where
  | info
  | warn
  | error
  deriving DecidableEq, Repr

/-- Observable steps, in program order: log lines and calls into the
collaborators. -/
inductive Event where
  | log (lvl : Level) (msg : String)
  | newMux (cfg : Config) (reporter : Reporter)
  | loadTLSServerConfig (tls : TLSSettings)
  | serve (lis : Listener)
  | serveTLS (lis : Listener) (certFile keyFile : String)
  | shutdown
  | close
  deriving DecidableEq, Repr

/-- The request metadata `doNotTrace` reads: `req.RemoteAddr` and
`req.URL.Path`. -/
structure Request where
  RemoteAddr : String
  Path : String
  deriving DecidableEq, Repr

/-- The collaborators of `http.go`. The `http.Server` methods have a pointer
receiver, so each returns the server value it leaves behind next to its
`error`. `BuildModuleConfig` of libbeat returns a freshly allocated
`*tls.Config`, hence a `TLSConfig` and not an `Option`. -/
structure Env where
  RootPath : String
  NewMux : Config → Reporter → Except GoError Mux
  LoadTLSServerConfig : TLSSettings → Except GoError TLSServerConfig
  BuildModuleConfig : TLSServerConfig → String → TLSConfig
  Serve : Http.Server → Listener → Http.Server × Option GoError
  ServeTLS : Http.Server → Listener → String → String → Http.Server × Option GoError
  Shutdown : Http.Server → Http.Server × Option GoError
  Close : Http.Server → Http.Server × Option GoError

/-! ## Log messages -/

/-- The warning of the allowed-origins loop. -/
def corsWarning : Event :=
  Event.log Level.warn
    "CORS related setting `apm-server.rum.allow_origins` allows all origins. Consider more restrictive setting for production use."

/-- The warning for a secret token without transport security. -/
def secretTokenWarning : Event :=
  Event.log Level.warn "Secret token is set, but SSL is not enabled."

/-! ## `newHTTPServer` -/

/-- Outcome of `newHTTPServer`: the collaborator calls made, and the pair
`(*httpServer, error)` as an `Except`. -/
structure NewResult where
  calls : List Event
  result : Except GoError httpServer

/-- The function `newHTTPServer(logger, cfg, tracer, reporter)`. -/
def newHTTPServer (env : Env) (logger : Logger) (cfg : Config) (tracer : Tracer)
    (reporter : Reporter) : NewResult :=
  match env.NewMux cfg reporter with
  | Except.error err => ⟨[Event.newMux cfg reporter], Except.error err⟩
  | Except.ok mux =>
    let server : Http.Server :=
      { Addr := cfg.Host
        Handler := ⟨mux, tracer⟩
        IdleTimeout := cfg.IdleTimeout
        ReadTimeout := cfg.ReadTimeout
        WriteTimeout := cfg.WriteTimeout
        MaxHeaderBytes := cfg.MaxHeaderSize
        TLSConfig := none }
    if cfg.TLS.IsEnabled then
      match env.LoadTLSServerConfig cfg.TLS with
      | Except.error err =>
        ⟨[Event.newMux cfg reporter, Event.loadTLSServerConfig cfg.TLS], Except.error err⟩
      | Except.ok tlsServerConfig =>
        ⟨[Event.newMux cfg reporter, Event.loadTLSServerConfig cfg.TLS],
          Except.ok
            ⟨{ server with TLSConfig := some (env.BuildModuleConfig tlsServerConfig cfg.Host) },
              cfg, logger⟩⟩
    else
      ⟨[Event.newMux cfg reporter], Except.ok ⟨server, cfg, logger⟩⟩

/-! ## `httpServer.start` -/

/-- The loop `for _, s := range AllowOrigins { if s == "*" { Warn(...); break } }`. -/
def allowOriginsLoop : List String → List Event
  | [] => []
  | s :: rest => if s = "*" then [corsWarning] else allowOriginsLoop rest

/-- The `switch h.cfg.RumConfig.IsEnabled()` statement of `start`. -/
def rumLog (cfg : Config) : List Event :=
  match cfg.RumConfig.IsEnabled with
  | true =>
    Event.log Level.info "RUM endpoints enabled!" :: allowOriginsLoop cfg.RumConfig.AllowOrigins
  | false => [Event.log Level.info "RUM endpoints disabled."]

/-- The listener after `if h.cfg.MaxConnections > 0 { lis = LimitListener(...) }`. -/
def limitedListener (cfg : Config) (lis : Listener) : Listener :=
  if cfg.MaxConnections > 0 then LimitListener lis cfg.MaxConnections else lis

/-- The log line of the `MaxConnections > 0` branch. -/
def limitLog (cfg : Config) : List Event :=
  if cfg.MaxConnections > 0 then
    [Event.log Level.info ("Connection limit set to: " ++ toString cfg.MaxConnections)]
  else []

/-- Outcome of `start`: the receiver after the call, the events in order, and
the returned `error`. -/
structure StartResult where
  h : httpServer
  trace : List Event
  err : Option GoError

/-- The method `(h *httpServer) start(lis)`. -/
def start (env : Env) (h : httpServer) (lis : Listener) : StartResult :=
  let t0 := [Event.log Level.info ("Listening on: " ++ h.Server.Addr)]
  let t1 := t0 ++ rumLog h.cfg
  let t2 := t1 ++ limitLog h.cfg
  let lis := limitedListener h.cfg lis
  if h.Server.TLSConfig ≠ none then
    let t3 := t2 ++ [Event.log Level.info "SSL enabled."]
    let r := env.ServeTLS h.Server lis "" ""
    ⟨{ h with Server := r.1 }, t3 ++ [Event.serveTLS lis "" ""], r.2⟩
  else
    let t3 := if h.cfg.SecretToken ≠ "" then t2 ++ [secretTokenWarning] else t2
    let t4 := t3 ++ [Event.log Level.info "SSL disabled."]
    let r := env.Serve h.Server lis
    ⟨{ h with Server := r.1 }, t4 ++ [Event.serve lis], r.2⟩

/-! ## `httpServer.stop` -/

/-- Outcome of `stop`: the receiver after the call and the events in order.
The Go method has no result value. -/
structure StopResult where
  h : httpServer
  trace : List Event

/-- The method `(h *httpServer) stop()`. -/
def stop (env : Env) (h : httpServer) : StopResult :=
  let t0 := [Event.log Level.info ("Stop listening on: " ++ h.Server.Addr), Event.shutdown]
  match env.Shutdown h.Server with
  | (s1, none) => ⟨{ h with Server := s1 }, t0⟩
  | (s1, some err) =>
    let t1 := t0 ++ [Event.log Level.error ("error stopping http server: " ++ err), Event.close]
    match env.Close s1 with
    | (s2, none) => ⟨{ h with Server := s2 }, t1⟩
    | (s2, some err) =>
      ⟨{ h with Server := s2 },
        t1 ++ [Event.log Level.error ("error closing http server: " ++ err)]⟩

/-! ## `doNotTrace` -/

/-- The function `doNotTrace(req)`; `RootPath` is the constant `api.RootPath`. -/
def doNotTrace (RootPath : String) (req : Request) : Bool :=
  if req.RemoteAddr = "pipe" then
    true
  else if req.Path = RootPath then
    true
  else
    false

/-! ## Reading a trace -/

/-- The events of `start` that come before the dispatch on `h.TLSConfig`. -/
def startPrefix (h : httpServer) : List Event :=
  [Event.log Level.info ("Listening on: " ++ h.Server.Addr)] ++ rumLog h.cfg ++ limitLog h.cfg

/-- Whether an event is a log line. -/
def Event.isLog : Event → Bool
  | Event.log _ _ => true
  | _ => false

/-- Whether an event is a call of `Serve` or `ServeTLS`. -/
def Event.isServeCall : Event → Bool
  | Event.serve _ => true
  | Event.serveTLS _ _ _ => true
  | _ => false

/-- The listener a serving call was made on. -/
def Event.servedListener : Event → Option Listener
  | Event.serve l => some l
  | Event.serveTLS l _ _ => some l
  | _ => none

/-! ## Call sequences on one instance -/

/-- A call a client makes on an instance after construction. -/
inductive Op where
  | start (lis : Listener)
  | stop
  deriving DecidableEq, Repr

/-- The receiver after one call. -/
def step (env : Env) (h : httpServer) : Op → httpServer
  | Op.start lis => (start env h lis).h
  | Op.stop => (stop env h).h

/-- The receiver after a sequence of calls, made one after the other. -/
def run (env : Env) (h : httpServer) (ops : List Op) : httpServer :=
  ops.foldl (step env) h

/-- Whether an event is an error-level log line. -/
def Event.isErrorLog : Event → Bool
  | Event.log Level.error _ => true
  | _ => false

/-! ## A concrete configuration and environment -/

/-- A configuration with transport security enabled, a secret token, RUM
enabled with a wildcard origin, and a connection limit of 2. -/
def sampleConfig : Config :=
  { Host := "localhost:8200"
    IdleTimeout := 45
    ReadTimeout := 30
    WriteTimeout := 30
    MaxHeaderSize := 1048576
    MaxConnections := 2
    TLS := ⟨true, "cert.pem"⟩
    SecretToken := "abc"
    RumConfig := ⟨true, ["http://a", "*", "*"]⟩ }

/-- An environment whose collaborators succeed at construction, whose serving
calls end with the "server closed" condition, whose graceful shutdown fails
and whose forced close succeeds; the server value is left as it was. -/
def sampleEnv : Env :=
  { RootPath := "/"
    NewMux := fun _ _ => Except.ok ⟨1⟩
    LoadTLSServerConfig := fun _ => Except.ok ⟨2⟩
    BuildModuleConfig := fun _ _ => ⟨3⟩
    Serve := fun s _ => (s, some "http: Server closed")
    ServeTLS := fun s _ _ _ => (s, some "http: Server closed")
    Shutdown := fun s => (s, some "context deadline exceeded")
    Close := fun s => (s, none) }

/-- The instance `newHTTPServer` builds from `sampleConfig` in `sampleEnv`. -/
def sampleServer : httpServer :=
  { Server :=
      { Addr := "localhost:8200"
        Handler := ⟨⟨1⟩, ⟨7⟩⟩
        IdleTimeout := 45
        ReadTimeout := 30
        WriteTimeout := 30
        MaxHeaderBytes := 1048576
        TLSConfig := some ⟨3⟩ }
    cfg := sampleConfig
    logger := ⟨9⟩ }

/-- A configuration with transport security disabled, no secret token, RUM
disabled and no connection limit. -/
def plainConfig : Config :=
  { Host := "localhost:8200"
    IdleTimeout := 45
    ReadTimeout := 30
    WriteTimeout := 30
    MaxHeaderSize := 1048576
    MaxConnections := 0
    TLS := ⟨false, ""⟩
    SecretToken := ""
    RumConfig := ⟨false, []⟩ }

/-- An environment whose `Serve` leaves a `TLSConfig` on a server that had
none, as `net/http` does when it sets up HTTP/2 for a server without one
(`s.TLSConfig = new(tls.Config)`); a server that has one keeps it. `Shutdown`
succeeds and the other methods leave the server as it was. -/
def allocatingEnv : Env :=
  { RootPath := "/"
    NewMux := fun _ _ => Except.ok ⟨1⟩
    LoadTLSServerConfig := fun _ => Except.ok ⟨2⟩
    BuildModuleConfig := fun _ _ => ⟨3⟩
    Serve := fun s _ =>
      ({ s with TLSConfig := some (s.TLSConfig.getD ⟨0⟩) }, some "http: Server closed")
    ServeTLS := fun s _ _ _ => (s, some "http: Server closed")
    Shutdown := fun s => (s, none)
    Close := fun s => (s, none) }

/-- The instance `newHTTPServer` builds from `plainConfig` in `allocatingEnv`. -/
def plainServer : httpServer :=
  { Server :=
      { Addr := "localhost:8200"
        Handler := ⟨⟨1⟩, ⟨7⟩⟩
        IdleTimeout := 45
        ReadTimeout := 30
        WriteTimeout := 30
        MaxHeaderBytes := 1048576
        TLSConfig := none }
    cfg := plainConfig
    logger := ⟨9⟩ }

/-! ## Helper lemmas -/

theorem Listener.limit_ne_self (l : Listener) (n : Int) : Listener.limit l n ≠ l := by
  intro hEq
  have hSize := congrArg sizeOf hEq
  simp at hSize
  omega

theorem corsWarning_ne_secretTokenWarning : corsWarning ≠ secretTokenWarning := by
  decide

/-! ### Unfolding `start` -/

theorem start_tls (env : Env) (h : httpServer) (lis : Listener)
    (hT : h.Server.TLSConfig ≠ none) :
    (start env h lis).trace =
        startPrefix h ++ [Event.log Level.info "SSL enabled.",
          Event.serveTLS (limitedListener h.cfg lis) "" ""] ∧
      (start env h lis).err = (env.ServeTLS h.Server (limitedListener h.cfg lis) "" "").2 ∧
      (start env h lis).h =
        { h with Server := (env.ServeTLS h.Server (limitedListener h.cfg lis) "" "").1 } := by
  simp [start, startPrefix, hT]

theorem start_plain (env : Env) (h : httpServer) (lis : Listener)
    (hT : h.Server.TLSConfig = none) :
    (start env h lis).trace =
        startPrefix h ++ ((if h.cfg.SecretToken ≠ "" then [secretTokenWarning] else []) ++
          [Event.log Level.info "SSL disabled.", Event.serve (limitedListener h.cfg lis)]) ∧
      (start env h lis).err = (env.Serve h.Server (limitedListener h.cfg lis)).2 ∧
      (start env h lis).h =
        { h with Server := (env.Serve h.Server (limitedListener h.cfg lis)).1 } := by
  by_cases hs : h.cfg.SecretToken = ""
  · simp [start, startPrefix, hT, hs]
  · simp [start, startPrefix, hT, hs]

theorem allowOriginsLoop_mem (xs : List String) (e : Event)
    (he : e ∈ allowOriginsLoop xs) : e = corsWarning := by
  induction xs with
  | nil => simp [allowOriginsLoop] at he
  | cons x rest ih =>
    unfold allowOriginsLoop at he
    by_cases hx : x = "*"
    · simpa [hx] using he
    · simp only [hx, if_false] at he
      exact ih he

theorem allowOriginsLoop_count (xs : List String) :
    (allowOriginsLoop xs).count corsWarning = if "*" ∈ xs then 1 else 0 := by
  induction xs with
  | nil => simp [allowOriginsLoop]
  | cons x rest ih =>
    unfold allowOriginsLoop
    by_cases hx : x = "*"
    · simp [hx]
    · have hx' : ¬ "*" = x := fun hEq => hx hEq.symm
      simp only [hx, if_false, ih, List.mem_cons, hx', false_or]

theorem startPrefix_mem (h : httpServer) (e : Event) (he : e ∈ startPrefix h) :
    (∃ msg, e = Event.log Level.info msg) ∨ e = corsWarning := by
  unfold startPrefix rumLog limitLog at he
  simp only [List.mem_append, List.mem_singleton] at he
  rcases he with (he | he) | he
  · exact Or.inl ⟨_, he⟩
  · cases hen : h.cfg.RumConfig.IsEnabled with
    | true =>
      simp only [hen, List.mem_cons] at he
      rcases he with he | he
      · exact Or.inl ⟨_, he⟩
      · exact Or.inr (allowOriginsLoop_mem _ _ he)
    | false =>
      simp only [hen, List.mem_singleton] at he
      exact Or.inl ⟨_, he⟩
  · by_cases hm : h.cfg.MaxConnections > 0
    · simp only [hm, if_true, List.mem_singleton] at he
      exact Or.inl ⟨_, he⟩
    · simp [hm] at he

theorem startPrefix_isLog (h : httpServer) (e : Event) (he : e ∈ startPrefix h) :
    e.isLog = true := by
  rcases startPrefix_mem h e he with ⟨msg, rfl⟩ | rfl
  · rfl
  · rfl

theorem startPrefix_count_cors (h : httpServer) :
    (startPrefix h).count corsWarning =
      if h.cfg.RumConfig.IsEnabled = true ∧ "*" ∈ h.cfg.RumConfig.AllowOrigins then 1 else 0 := by
  unfold startPrefix rumLog limitLog
  have hinfo : ∀ msg, (Event.log Level.info msg == corsWarning) = false := by
    intro msg
    simp [corsWarning]
  cases hen : h.cfg.RumConfig.IsEnabled with
  | true =>
    by_cases hm : h.cfg.MaxConnections > 0
    · simp [hm, List.count_cons, hinfo, allowOriginsLoop_count]
    · simp [hm, List.count_cons, hinfo, allowOriginsLoop_count]
  | false =>
    by_cases hm : h.cfg.MaxConnections > 0
    · simp [hm, List.count_cons, hinfo]
    · simp [hm, List.count_cons, hinfo]

theorem secretTokenWarning_not_mem_startPrefix (h : httpServer) :
    secretTokenWarning ∉ startPrefix h := by
  intro hmem
  rcases startPrefix_mem h _ hmem with ⟨msg, hmsg⟩ | hEq
  · simp [secretTokenWarning] at hmsg
  · exact corsWarning_ne_secretTokenWarning hEq.symm

theorem filterMap_servedListener_logs (l : List Event) (hl : ∀ x ∈ l, x.isLog = true) :
    l.filterMap Event.servedListener = [] := by
  induction l with
  | nil => rfl
  | cons x rest ih =>
    have hx := hl x (List.mem_cons_self _ _)
    have hrest := ih (fun y hy => hl y (List.mem_cons_of_mem _ hy))
    cases x <;> simp_all [Event.isLog, Event.servedListener, List.filterMap_cons]

theorem filter_isServeCall_logs (l : List Event) (hl : ∀ x ∈ l, x.isLog = true) :
    l.filter Event.isServeCall = [] := by
  induction l with
  | nil => rfl
  | cons x rest ih =>
    have hx := hl x (List.mem_cons_self _ _)
    have hrest := ih (fun y hy => hl y (List.mem_cons_of_mem _ hy))
    cases x <;> simp_all [Event.isLog, Event.isServeCall, List.filter_cons]

theorem limitedListener_eq_limit_iff (cfg : Config) (lis : Listener) :
    limitedListener cfg lis = LimitListener lis cfg.MaxConnections ↔ cfg.MaxConnections > 0 := by
  unfold limitedListener LimitListener
  by_cases hm : cfg.MaxConnections > 0
  · simp [hm]
  · simp only [hm, if_false, iff_false]
    exact fun hEq => Listener.limit_ne_self _ _ hEq.symm

theorem limitedListener_eq_self_iff (cfg : Config) (lis : Listener) :
    limitedListener cfg lis = lis ↔ cfg.MaxConnections ≤ 0 := by
  unfold limitedListener LimitListener
  by_cases hm : cfg.MaxConnections > 0
  · simp only [hm, if_true]
    constructor
    · intro hEq
      exact absurd hEq (Listener.limit_ne_self _ _)
    · intro hle
      omega
  · simp only [hm, if_false, true_iff]
    omega

theorem limitLog_mem_startPrefix (h : httpServer) (hm : h.cfg.MaxConnections > 0) :
    Event.log Level.info ("Connection limit set to: " ++ toString h.cfg.MaxConnections) ∈
      startPrefix h := by
  simp [startPrefix, limitLog, hm]

/-- The serving calls in a trace of `start`, and the listeners they are made on. -/
theorem start_serve_calls (env : Env) (h : httpServer) (lis : Listener) :
    (start env h lis).trace.filterMap Event.servedListener = [limitedListener h.cfg lis] ∧
    (start env h lis).trace.filter Event.isServeCall =
      [if h.Server.TLSConfig ≠ none then Event.serveTLS (limitedListener h.cfg lis) "" ""
        else Event.serve (limitedListener h.cfg lis)] := by
  have h1 := filterMap_servedListener_logs _ (startPrefix_isLog h)
  have h2 := filter_isServeCall_logs _ (startPrefix_isLog h)
  by_cases hT : h.Server.TLSConfig = none
  · obtain ⟨ht, _, _⟩ := start_plain env h lis hT
    rw [ht]
    by_cases hs : h.cfg.SecretToken = ""
    · simp [List.filterMap_append, List.filter_append, h1, h2, hT, hs, Event.servedListener,
        Event.isServeCall, List.filterMap_cons, List.filter_cons]
    · simp [List.filterMap_append, List.filter_append, h1, h2, hT, hs, Event.servedListener,
        Event.isServeCall, List.filterMap_cons, List.filter_cons, secretTokenWarning]
  · obtain ⟨ht, _, _⟩ := start_tls env h lis hT
    rw [ht]
    simp [List.filterMap_append, List.filter_append, h1, h2, hT, Event.servedListener,
      Event.isServeCall, List.filterMap_cons, List.filter_cons]

/-- The trace of `start` is a run of log lines followed by one serving call. -/
theorem start_trace_shape (env : Env) (h : httpServer) (lis : Listener) :
    ∃ pre e, (start env h lis).trace = pre ++ [e] ∧ (∀ x ∈ pre, x.isLog = true) ∧
      (∀ x ∈ startPrefix h, x ∈ pre) ∧ e.isServeCall = true ∧
      e.servedListener = some (limitedListener h.cfg lis) := by
  by_cases hT : h.Server.TLSConfig = none
  · obtain ⟨ht, _, _⟩ := start_plain env h lis hT
    refine ⟨startPrefix h ++ ((if h.cfg.SecretToken ≠ "" then [secretTokenWarning] else []) ++
      [Event.log Level.info "SSL disabled."]), Event.serve (limitedListener h.cfg lis),
      ?_, ?_, ?_, rfl, rfl⟩
    · rw [ht]
      simp
    · intro x hx
      rcases List.mem_append.mp hx with hx | hx
      · exact startPrefix_isLog h x hx
      · by_cases hs : h.cfg.SecretToken = ""
        · simp [hs] at hx
          subst hx
          rfl
        · simp [hs] at hx
          rcases hx with rfl | rfl
          · rfl
          · rfl
    · intro x hx
      exact List.mem_append_left _ hx
  · obtain ⟨ht, _, _⟩ := start_tls env h lis hT
    refine ⟨startPrefix h ++ [Event.log Level.info "SSL enabled."],
      Event.serveTLS (limitedListener h.cfg lis) "" "", ?_, ?_, ?_, rfl, rfl⟩
    · rw [ht]
      simp
    · intro x hx
      rcases List.mem_append.mp hx with hx | hx
      · exact startPrefix_isLog h x hx
      · simp at hx
        subst hx
        rfl
    · intro x hx
      exact List.mem_append_left _ hx

/-- The serving call of `start` is `ServeTLS` exactly when `TLSConfig` is set. -/
theorem start_secure_iff (env : Env) (h : httpServer) (lis : Listener) :
    (start env h lis).trace.filter Event.isServeCall =
        [Event.serveTLS (limitedListener h.cfg lis) "" ""] ↔ h.Server.TLSConfig ≠ none := by
  obtain ⟨_, hcalls⟩ := start_serve_calls env h lis
  rw [hcalls]
  by_cases hT : h.Server.TLSConfig = none
  · simp [hT]
  · simp [hT]

/-- The receiver after `start`: `cfg` as before, and the server that the
serving call left behind. -/
theorem start_receiver (env : Env) (h : httpServer) (lis : Listener) :
    (start env h lis).h.cfg = h.cfg ∧
      (start env h lis).h.Server =
        (if h.Server.TLSConfig ≠ none then
          (env.ServeTLS h.Server (limitedListener h.cfg lis) "" "").1
        else (env.Serve h.Server (limitedListener h.cfg lis)).1) := by
  by_cases hT : h.Server.TLSConfig = none
  · obtain ⟨_, _, hh⟩ := start_plain env h lis hT
    rw [hh]
    simp [hT]
  · obtain ⟨_, _, hh⟩ := start_tls env h lis hT
    rw [hh]
    simp [hT]

/-- The trace and receiver of `stop`, by outcome of `Shutdown` and `Close`. -/
theorem stop_cases (env : Env) (h : httpServer) :
    ((env.Shutdown h.Server).2 = none ∧
      (stop env h).trace =
        [Event.log Level.info ("Stop listening on: " ++ h.Server.Addr), Event.shutdown] ∧
      (stop env h).h = { h with Server := (env.Shutdown h.Server).1 }) ∨
    (∃ e1, (env.Shutdown h.Server).2 = some e1 ∧
      (env.Close (env.Shutdown h.Server).1).2 = none ∧
      (stop env h).trace =
        [Event.log Level.info ("Stop listening on: " ++ h.Server.Addr), Event.shutdown,
          Event.log Level.error ("error stopping http server: " ++ e1), Event.close] ∧
      (stop env h).h = { h with Server := (env.Close (env.Shutdown h.Server).1).1 }) ∨
    (∃ e1 e2, (env.Shutdown h.Server).2 = some e1 ∧
      (env.Close (env.Shutdown h.Server).1).2 = some e2 ∧
      (stop env h).trace =
        [Event.log Level.info ("Stop listening on: " ++ h.Server.Addr), Event.shutdown,
          Event.log Level.error ("error stopping http server: " ++ e1), Event.close,
          Event.log Level.error ("error closing http server: " ++ e2)] ∧
      (stop env h).h = { h with Server := (env.Close (env.Shutdown h.Server).1).1 }) := by
  unfold stop
  rcases hsd : env.Shutdown h.Server with ⟨s1, _ | e1⟩
  · left
    simp
  · right
    rcases hcl : env.Close s1 with ⟨s2, _ | e2⟩
    · left
      exact ⟨e1, by simp [hcl]⟩
    · right
      exact ⟨e1, e2, by simp [hcl]⟩

/-- The receiver after `stop`: `cfg` as before, and the server that `Shutdown`
left behind, or `Close` when `Shutdown` failed. -/
theorem stop_receiver (env : Env) (h : httpServer) :
    (stop env h).h.cfg = h.cfg ∧
      (stop env h).h.Server =
        (if (env.Shutdown h.Server).2 = none then (env.Shutdown h.Server).1
        else (env.Close (env.Shutdown h.Server).1).1) := by
  rcases stop_cases env h with ⟨hsd, _, hh⟩ | ⟨_, hsd, _, _, hh⟩ | ⟨_, _, hsd, _, _, hh⟩
  · rw [hh, hsd]
    simp
  · rw [hh, hsd]
    simp
  · rw [hh, hsd]
    simp

/-- No sequence of `start` and `stop` calls changes `cfg`. -/
theorem run_cfg (env : Env) (ops : List Op) (h : httpServer) :
    (run env h ops).cfg = h.cfg := by
  induction ops generalizing h with
  | nil => rfl
  | cons op rest ih =>
    have hstep : (step env h op).cfg = h.cfg := by
      cases op with
      | start lis => exact (start_receiver env h lis).1
      | stop => exact (stop_receiver env h).1
    have hrest := ih (step env h op)
    unfold run at hrest ⊢
    rw [List.foldl_cons]
    exact hrest.trans hstep

/-! ## `doNotTrace` -/

/-- C1: `doNotTrace` returns true exactly when the remote address is `"pipe"`
or the URL path is `api.RootPath`, and false for every other request. -/
theorem doNotTrace_iff (RootPath : String) (req : Request) :
    (doNotTrace RootPath req = true ↔ (req.RemoteAddr = "pipe" ∨ req.Path = RootPath)) ∧
    (doNotTrace RootPath req = false ↔ (req.RemoteAddr ≠ "pipe" ∧ req.Path ≠ RootPath)) := by
  unfold doNotTrace
  by_cases h1 : req.RemoteAddr = "pipe"
  · simp [h1]
  · by_cases h2 : req.Path = RootPath
    · simp [h1, h2]
    · simp [h1, h2]

/-! ## `newHTTPServer` -/

/-- Shape of a successful construction: the mux came from `api.NewMux`, and the
instance is the passthrough server with `TLSConfig` set exactly when transport
security is enabled. -/
theorem newHTTPServer_ok_inv (env : Env) (logger : Logger) (cfg : Config) (tracer : Tracer)
    (reporter : Reporter) (h : httpServer)
    (hnew : (newHTTPServer env logger cfg tracer reporter).result = Except.ok h) :
    h.Server.Addr = cfg.Host ∧ h.Server.IdleTimeout = cfg.IdleTimeout ∧
    h.Server.ReadTimeout = cfg.ReadTimeout ∧ h.Server.WriteTimeout = cfg.WriteTimeout ∧
    h.Server.MaxHeaderBytes = cfg.MaxHeaderSize ∧ h.cfg = cfg ∧ h.logger = logger ∧
    (h.Server.TLSConfig ≠ none ↔ cfg.TLS.IsEnabled = true) := by
  unfold newHTTPServer at hnew
  cases hmux : env.NewMux cfg reporter with
  | error e => simp [hmux] at hnew
  | ok mux =>
    by_cases hen : cfg.TLS.IsEnabled = true
    · cases hload : env.LoadTLSServerConfig cfg.TLS with
      | error e => simp [hmux, hen, hload] at hnew
      | ok t =>
        simp [hmux, hen, hload] at hnew
        subst hnew
        simp [hen]
    · simp [hmux, hen] at hnew
      subst hnew
      simp [hen]

/-- C9: on success the server fields `Addr`, `IdleTimeout`, `ReadTimeout`,
`WriteTimeout` and `MaxHeaderBytes` are the configuration values `Host`,
`IdleTimeout`, `ReadTimeout`, `WriteTimeout` and `MaxHeaderSize`, copied as
they are, and the instance holds the configuration it was built from. -/
theorem newHTTPServer_passthrough (env : Env) (logger : Logger) (cfg : Config)
    (tracer : Tracer) (reporter : Reporter) (h : httpServer)
    (hnew : (newHTTPServer env logger cfg tracer reporter).result = Except.ok h) :
    h.Server.Addr = cfg.Host ∧ h.Server.IdleTimeout = cfg.IdleTimeout ∧
    h.Server.ReadTimeout = cfg.ReadTimeout ∧ h.Server.WriteTimeout = cfg.WriteTimeout ∧
    h.Server.MaxHeaderBytes = cfg.MaxHeaderSize ∧ h.cfg = cfg := by
  obtain ⟨h1, h2, h3, h4, h5, h6, _, _⟩ :=
    newHTTPServer_ok_inv env logger cfg tracer reporter h hnew
  exact ⟨h1, h2, h3, h4, h5, h6⟩

/-- Witness for C9 at `sampleConfig` in `sampleEnv`. -/
theorem newHTTPServer_passthrough_witness :
    (newHTTPServer sampleEnv ⟨9⟩ sampleConfig ⟨7⟩ ⟨5⟩).result = Except.ok sampleServer ∧
    (sampleServer.Server.Addr = sampleConfig.Host ∧
      sampleServer.Server.IdleTimeout = sampleConfig.IdleTimeout ∧
      sampleServer.Server.ReadTimeout = sampleConfig.ReadTimeout ∧
      sampleServer.Server.WriteTimeout = sampleConfig.WriteTimeout ∧
      sampleServer.Server.MaxHeaderBytes = sampleConfig.MaxHeaderSize ∧
      sampleServer.cfg = sampleConfig) :=
  ⟨rfl, newHTTPServer_passthrough sampleEnv ⟨9⟩ sampleConfig ⟨7⟩ ⟨5⟩ sampleServer rfl⟩

/-- C7: construction fails exactly when `api.NewMux` fails, or transport
security is enabled and `LoadTLSServerConfig` fails; the error returned is the
one the failing collaborator gave; with transport security disabled the
provider is not called and the outcome does not depend on it. -/
theorem newHTTPServer_fails_iff (env : Env) (logger : Logger) (cfg : Config)
    (tracer : Tracer) (reporter : Reporter) :
    ((∃ e, (newHTTPServer env logger cfg tracer reporter).result = Except.error e) ↔
      ((∃ e, env.NewMux cfg reporter = Except.error e) ∨
        (cfg.TLS.IsEnabled = true ∧ ∃ e, env.LoadTLSServerConfig cfg.TLS = Except.error e))) ∧
    (∀ e, env.NewMux cfg reporter = Except.error e →
      (newHTTPServer env logger cfg tracer reporter).result = Except.error e) ∧
    (∀ mux e, env.NewMux cfg reporter = Except.ok mux → cfg.TLS.IsEnabled = true →
      env.LoadTLSServerConfig cfg.TLS = Except.error e →
      (newHTTPServer env logger cfg tracer reporter).result = Except.error e) ∧
    (cfg.TLS.IsEnabled = false →
      (∀ t, Event.loadTLSServerConfig t ∉ (newHTTPServer env logger cfg tracer reporter).calls) ∧
      (∀ load : TLSSettings → Except GoError TLSServerConfig,
        (newHTTPServer { env with LoadTLSServerConfig := load } logger cfg tracer reporter).result =
          (newHTTPServer env logger cfg tracer reporter).result) ∧
      ((∃ e, (newHTTPServer env logger cfg tracer reporter).result = Except.error e) ↔
        ∃ e, env.NewMux cfg reporter = Except.error e)) := by
  unfold newHTTPServer
  cases hmux : env.NewMux cfg reporter with
  | error e => simp [hmux]
  | ok mux =>
    by_cases hen : cfg.TLS.IsEnabled = true
    · cases hload : env.LoadTLSServerConfig cfg.TLS with
      | error e => simp [hmux, hen, hload]
      | ok t => simp [hmux, hen, hload]
    · simp [hmux, hen]

/-! ## `httpServer.start` -/

/-- C3: `start` makes its one serving call on `LimitListener(lis,
MaxConnections)` exactly when `MaxConnections > 0`, and on the listener of the
caller, unchanged, exactly when `MaxConnections ≤ 0`; the serving call is the
last step, after the wrapping and its log line. -/
theorem start_limits_listener (env : Env) (h : httpServer) (lis : Listener) :
    ((start env h lis).trace.filterMap Event.servedListener =
        [LimitListener lis h.cfg.MaxConnections] ↔ h.cfg.MaxConnections > 0) ∧
    ((start env h lis).trace.filterMap Event.servedListener = [lis] ↔
        h.cfg.MaxConnections ≤ 0) ∧
    (∃ pre e, (start env h lis).trace = pre ++ [e] ∧ (∀ x ∈ pre, x.isLog = true) ∧
      e.isServeCall = true ∧
      e.servedListener =
        some (if h.cfg.MaxConnections > 0 then LimitListener lis h.cfg.MaxConnections else lis) ∧
      (h.cfg.MaxConnections > 0 →
        Event.log Level.info ("Connection limit set to: " ++ toString h.cfg.MaxConnections) ∈
          pre)) := by
  obtain ⟨hserved, _⟩ := start_serve_calls env h lis
  refine ⟨?_, ?_, ?_⟩
  · rw [hserved]
    simpa using limitedListener_eq_limit_iff h.cfg lis
  · rw [hserved]
    simpa using limitedListener_eq_self_iff h.cfg lis
  · obtain ⟨pre, e, htrace, hlogs, hpre, hcall, hlis⟩ := start_trace_shape env h lis
    exact ⟨pre, e, htrace, hlogs, hcall, hlis,
      fun hm => hpre _ (limitLog_mem_startPrefix h hm)⟩

/-- C4: one call of `start` logs the CORS wildcard warning once when RUM is
enabled and some allowed origin is `"*"`, whatever the number of such entries,
and never otherwise. -/
theorem start_cors_warning_count (env : Env) (h : httpServer) (lis : Listener) :
    (start env h lis).trace.count corsWarning =
      if h.cfg.RumConfig.IsEnabled = true ∧ "*" ∈ h.cfg.RumConfig.AllowOrigins then 1 else 0 := by
  by_cases hT : h.Server.TLSConfig = none
  · obtain ⟨ht, _, _⟩ := start_plain env h lis hT
    rw [ht, List.count_append, startPrefix_count_cors]
    by_cases hs : h.cfg.SecretToken = ""
    · simp [hs, List.count_cons, corsWarning]
    · simp [hs, List.count_cons, corsWarning, secretTokenWarning]
  · obtain ⟨ht, _, _⟩ := start_tls env h lis hT
    rw [ht, List.count_append, startPrefix_count_cors]
    simp [List.count_cons, corsWarning]

/-- C5: `start` makes exactly one serving call, on the possibly limited
listener: `ServeTLS(lis, "", "")` when `TLSConfig` is not nil and `Serve(lis)`
when it is nil; the error `start` returns is the one that call returned. -/
theorem start_dispatch (env : Env) (h : httpServer) (lis : Listener) :
    (h.Server.TLSConfig ≠ none →
      (start env h lis).trace.filter Event.isServeCall =
          [Event.serveTLS (limitedListener h.cfg lis) "" ""] ∧
        (start env h lis).err = (env.ServeTLS h.Server (limitedListener h.cfg lis) "" "").2) ∧
    (h.Server.TLSConfig = none →
      (start env h lis).trace.filter Event.isServeCall =
          [Event.serve (limitedListener h.cfg lis)] ∧
        (start env h lis).err = (env.Serve h.Server (limitedListener h.cfg lis)).2) := by
  obtain ⟨_, hcalls⟩ := start_serve_calls env h lis
  constructor
  · intro hT
    obtain ⟨_, herr, _⟩ := start_tls env h lis hT
    exact ⟨by rw [hcalls]; simp [hT], herr⟩
  · intro hT
    obtain ⟨_, herr, _⟩ := start_plain env h lis hT
    exact ⟨by rw [hcalls]; simp [hT], herr⟩

/-- C6: `start` logs "Secret token is set, but SSL is not enabled." exactly
when the secret token is not empty and `TLSConfig` is nil; in that case the
warning is followed by the "SSL disabled." line and the call of `Serve`, whose
error `start` returns. -/
theorem start_secret_token_warning (env : Env) (h : httpServer) (lis : Listener) :
    (secretTokenWarning ∈ (start env h lis).trace ↔
      (h.cfg.SecretToken ≠ "" ∧ h.Server.TLSConfig = none)) ∧
    (h.cfg.SecretToken ≠ "" → h.Server.TLSConfig = none →
      (∃ pre, (start env h lis).trace =
        pre ++ [secretTokenWarning, Event.log Level.info "SSL disabled.",
          Event.serve (limitedListener h.cfg lis)]) ∧
      (start env h lis).err = (env.Serve h.Server (limitedListener h.cfg lis)).2) := by
  have hpre := secretTokenWarning_not_mem_startPrefix h
  have hpre' : Event.log Level.warn "Secret token is set, but SSL is not enabled." ∉
      startPrefix h := hpre
  constructor
  · by_cases hT : h.Server.TLSConfig = none
    · obtain ⟨ht, _, _⟩ := start_plain env h lis hT
      rw [ht]
      by_cases hs : h.cfg.SecretToken = ""
      · simp [hpre', hs, hT, secretTokenWarning]
      · simp [hpre, hs, hT]
    · obtain ⟨ht, _, _⟩ := start_tls env h lis hT
      rw [ht]
      simp [hpre', hT, secretTokenWarning]
  · intro hs hT
    obtain ⟨ht, herr, _⟩ := start_plain env h lis hT
    refine ⟨⟨startPrefix h, ?_⟩, herr⟩
    rw [ht]
    simp [hs]

/-! ## `httpServer.stop` -/

/-- C2: `stop` calls `Shutdown` once; it calls `Close` exactly when `Shutdown`
returned an error, at most once and after `Shutdown`; it logs the error of
`Shutdown` and the error of `Close` when they occur, and logs as many error
lines as errors occurred. `stop` is total and its result carries no error,
also when both calls fail. -/
theorem stop_fallback (env : Env) (h : httpServer) :
    (Event.close ∈ (stop env h).trace ↔ (env.Shutdown h.Server).2 ≠ none) ∧
    (stop env h).trace.count Event.close ≤ 1 ∧
    (stop env h).trace.count Event.shutdown = 1 ∧
    (∀ i : Nat, (stop env h).trace[i]? = some Event.close →
      ∃ j : Nat, j < i ∧ (stop env h).trace[j]? = some Event.shutdown) ∧
    (∀ e, (env.Shutdown h.Server).2 = some e →
      Event.log Level.error ("error stopping http server: " ++ e) ∈ (stop env h).trace) ∧
    (∀ e, (env.Shutdown h.Server).2 ≠ none →
      (env.Close (env.Shutdown h.Server).1).2 = some e →
      Event.log Level.error ("error closing http server: " ++ e) ∈ (stop env h).trace) ∧
    ((stop env h).trace.filter Event.isErrorLog).length =
      (if (env.Shutdown h.Server).2 = none then 0
        else if (env.Close (env.Shutdown h.Server).1).2 = none then 1 else 2) := by
  rcases stop_cases env h with ⟨hsd, ht, _⟩ | ⟨e1, hsd, hcl, ht, _⟩ | ⟨e1, e2, hsd, hcl, ht, _⟩
  · rw [ht, hsd]
    refine ⟨by simp, by simp [List.count_cons], by simp [List.count_cons], ?_, by simp, by simp,
      by simp [List.filter_cons, Event.isErrorLog]⟩
    intro i hi
    rcases i with _ | _ | i <;> simp at hi
  · rw [ht, hsd, hcl]
    refine ⟨by simp, by simp [List.count_cons], by simp [List.count_cons], ?_, by simp, by simp,
      by simp [List.filter_cons, Event.isErrorLog]⟩
    intro i hi
    rcases i with _ | _ | _ | _ | i <;> simp at hi
    exact ⟨1, by omega, by simp⟩
  · rw [ht, hsd, hcl]
    refine ⟨by simp, by simp [List.count_cons], by simp [List.count_cons], ?_, by simp, by simp,
      by simp [List.filter_cons, Event.isErrorLog]⟩
    intro i hi
    rcases i with _ | _ | _ | _ | _ | i <;> simp at hi
    exact ⟨1, by omega, by simp⟩

/-! ## Transport security after construction -/

/-- C8, as stated, fails: in `allocatingEnv` the instance built from
`plainConfig` (transport security disabled) serves its first `start` through
`Serve`, that `start` changes the `TLSConfig` of the instance, and a `start`
made after `start` and `stop` goes through `ServeTLS`. -/
theorem tls_choice_toggled :
    plainConfig.TLS.IsEnabled = false ∧
    (newHTTPServer allocatingEnv ⟨9⟩ plainConfig ⟨7⟩ ⟨5⟩).result = Except.ok plainServer ∧
    (start allocatingEnv plainServer (Listener.raw 0)).trace.filter Event.isServeCall =
      [Event.serve (Listener.raw 0)] ∧
    (start allocatingEnv plainServer (Listener.raw 0)).h.Server.TLSConfig ≠
      plainServer.Server.TLSConfig ∧
    (start allocatingEnv (run allocatingEnv plainServer [Op.start (Listener.raw 0), Op.stop])
      (Listener.raw 1)).trace.filter Event.isServeCall =
      [Event.serveTLS (Listener.raw 1) "" ""] := by
  refine ⟨rfl, rfl, ?_, ?_, ?_⟩
  · decide
  · decide
  · decide

/-- C8, amended: for an instance built by `newHTTPServer`, the first `start`
serves through `ServeTLS` exactly when `cfg.TLS.IsEnabled()` and through
`Serve` otherwise; `start` and `stop` leave the configuration of the instance
as it was, over any sequence of calls; and they assign nothing to the server
themselves: after `start` it is the server the serving call left, after `stop`
the one `Shutdown` left, or `Close` when `Shutdown` failed. -/
theorem tls_choice_at_construction (env : Env) (logger : Logger) (cfg : Config)
    (tracer : Tracer) (reporter : Reporter) (h : httpServer)
    (hnew : (newHTTPServer env logger cfg tracer reporter).result = Except.ok h) :
    (∀ lis, ((start env h lis).trace.filter Event.isServeCall =
        [Event.serveTLS (limitedListener cfg lis) "" ""] ↔ cfg.TLS.IsEnabled = true) ∧
      ((start env h lis).trace.filter Event.isServeCall =
        [Event.serve (limitedListener cfg lis)] ↔ cfg.TLS.IsEnabled = false)) ∧
    (∀ lis, (start env h lis).h.cfg = cfg ∧
      (start env h lis).h.Server =
        (if cfg.TLS.IsEnabled = true then
          (env.ServeTLS h.Server (limitedListener cfg lis) "" "").1
        else (env.Serve h.Server (limitedListener cfg lis)).1)) ∧
    ((stop env h).h.cfg = cfg ∧
      (stop env h).h.Server =
        (if (env.Shutdown h.Server).2 = none then (env.Shutdown h.Server).1
        else (env.Close (env.Shutdown h.Server).1).1)) ∧
    (∀ ops, (run env h ops).cfg = cfg) := by
  obtain ⟨_, _, _, _, _, hcfg, _, htls⟩ :=
    newHTTPServer_ok_inv env logger cfg tracer reporter h hnew
  refine ⟨?_, ?_, ?_, ?_⟩
  · intro lis
    have hsec := start_secure_iff env h lis
    obtain ⟨_, hcalls⟩ := start_serve_calls env h lis
    rw [hcfg] at hsec hcalls
    refine ⟨hsec.trans htls, ?_⟩
    rw [hcalls]
    by_cases hT : h.Server.TLSConfig = none
    · have hdis : ¬ cfg.TLS.IsEnabled = true := fun hen => (htls.mpr hen) hT
      simp [hT, hdis]
    · have hen : cfg.TLS.IsEnabled = true := htls.mp hT
      simp [hT, hen]
  · intro lis
    obtain ⟨hc, hs⟩ := start_receiver env h lis
    rw [hcfg] at hc hs
    refine ⟨hc, ?_⟩
    rw [hs]
    by_cases hT : h.Server.TLSConfig = none
    · have hdis : ¬ cfg.TLS.IsEnabled = true := fun hen => (htls.mpr hen) hT
      simp [hT, hdis]
    · have hen : cfg.TLS.IsEnabled = true := htls.mp hT
      simp [hT, hen]
  · obtain ⟨hc, hs⟩ := stop_receiver env h
    exact ⟨hc.trans hcfg, hs⟩
  · intro ops
    exact (run_cfg env ops h).trans hcfg

/-- Witness for the amended C8 at `sampleConfig` in `sampleEnv`: the built
instance serves its first `start` through `ServeTLS`, and keeps its
configuration over a `start` and a `stop`. -/
theorem tls_choice_at_construction_witness :
    (newHTTPServer sampleEnv ⟨9⟩ sampleConfig ⟨7⟩ ⟨5⟩).result = Except.ok sampleServer ∧
    ((start sampleEnv sampleServer (Listener.raw 0)).trace.filter Event.isServeCall =
      [Event.serveTLS (limitedListener sampleConfig (Listener.raw 0)) "" ""] ↔
        sampleConfig.TLS.IsEnabled = true) ∧
    (run sampleEnv sampleServer [Op.start (Listener.raw 0), Op.stop]).cfg = sampleConfig :=
  ⟨rfl,
    ((tls_choice_at_construction sampleEnv ⟨9⟩ sampleConfig ⟨7⟩ ⟨5⟩ sampleServer rfl).1
      (Listener.raw 0)).1,
    (tls_choice_at_construction sampleEnv ⟨9⟩ sampleConfig ⟨7⟩ ⟨5⟩ sampleServer rfl).2.2.2
      [Op.start (Listener.raw 0), Op.stop]⟩

end Beater
